import Mathlib

set_option maxHeartbeats 1000000
set_option linter.unusedVariables false

/-!
Shallow embedding of the submission-processor service: the Kafka message
dispatcher (`dataHandler`), the two business workflows
(`processCreate`, `processScan`) and the helper functions
(`getreviewTypeId`, `downloadFile`, `moveFile`).

Modelling conventions:
- JavaScript values that may be `undefined` are `Option`s; JS string
  interpolation of `undefined` yields the string `"undefined"`
  (`jsToString`), and JS truthiness of booleans/strings is made explicit
  (`jsTruthy`, `jsTruthyStr`).
- Asynchronous side effects (S3 calls, outbound HTTP) are recorded as an
  ordered trace of `Action`s; logging calls of the dispatcher are recorded
  as `LogEvent`s (workflow-internal log lines are elided).
- A JS exception escaping a function is an `Except.error`; an exception
  escaping the per-message handler itself (outside every catch) is the
  `thrown` field of `HandlerOutcome`.
- External collaborators (the S3 client, the review API, uuid) are an
  environment `Env` of oracles; JSON decoding of the raw message bytes is
  abstracted as the `Option Envelope` carried by a `KafkaMessage`.
-/

namespace SubmissionProcessor

/-- JS coercion of a possibly-`undefined` string to a string (as produced by
template-literal interpolation or string concatenation). -/
def jsToString : Option String → String
  | none => "undefined"
  | some s => s

/-- JS truthiness of a possibly-`undefined` boolean. -/
def jsTruthy : Option Bool → Bool
  | none => false
  | some b => b

/-- JS truthiness of a possibly-`undefined` string: `undefined` and `""` are
falsy. -/
def jsTruthyStr : Option String → Bool
  | none => false
  | some s => s != ""

/-- `pat` occurs at the start of the character list. -/
def listStartsWith : List Char → List Char → Bool
  | [], _ => true
  | _ :: _, [] => false
  | a :: as, b :: bs => a == b && listStartsWith as bs

/-- `pat` occurs somewhere inside the character list. -/
def listOccurs (pat : List Char) : List Char → Bool
  | [] => listStartsWith pat []
  | b :: bs => listStartsWith pat (b :: bs) || listOccurs pat bs

/-- The JS regular-expression test of `downloadFile`: whether the string
`"amazonaws"` occurs anywhere in the URL. -/
def amazonawsTest (s : String) : Bool :=
  listOccurs "amazonaws".data s.data

/-- The remainder of the list after the first occurrence of `pat`, if any. -/
def dropAfter (pat : List Char) : List Char → Option (List Char)
  | [] => if pat.isEmpty then some [] else none
  | a :: as =>
    if listStartsWith pat (a :: as) then some (List.drop pat.length (a :: as))
    else dropAfter pat as

/-- The characters before the first `'/'` (the whole list if none). -/
def takeUntilSlash : List Char → List Char
  | [] => []
  | a :: as => if a == '/' then [] else a :: takeUntilSlash as

/-- The characters after the first `'/'`, if any. -/
def dropPastSlash : List Char → Option (List Char)
  | [] => none
  | a :: as => if a == '/' then some as else dropPastSlash as

/-- The part of a URL after the `"://"` scheme separator (empty when the
separator is absent). -/
def afterScheme (url : String) : List Char :=
  match dropAfter "://".data url.data with
  | some r => r
  | none => []

/-- The fixed review-type name used by `processScan`. -/
def AV_SCAN : String := "Virus Scan"

/-- The fixed scorecard id constant of `ProcessorService`. -/
def REVIEW_SCORECARDID : String := "30001850"

/-- The dynamic JS message payload: every field may be absent. -/
structure Payload where
  resource : Option String := none
  id : Option String := none
  url : Option String := none
  fileType : Option String := none
  isFileSubmission : Option Bool := none
  submissionId : Option String := none
  fileName : Option String := none
  status : Option String := none
  isInfected : Option Bool := none
  deriving DecidableEq, Repr, Inhabited

/-- The parsed event envelope; the `topic` and `payload` properties of the
parsed JSON object may each be absent. -/
structure Envelope where
  topic : Option String := none
  payload : Option Payload := none
  deriving DecidableEq, Repr, Inhabited

/-- The configuration values the core reads. -/
structure Config where
  AVSCAN_TOPIC : String
  SUBMISSION_CREATE_TOPIC : String
  DMZ_BUCKET : String
  CLEAN_BUCKET : String
  QUARANTINE_BUCKET : String
  ANTIVIRUS_API_URL : String
  SUBMISSION_API_URL : String
  deriving DecidableEq, Repr

/-- Outcome of the `getObjectAsync` probe of the DMZ bucket in
`processCreate`: the object is there, the call failed with statusCode 404,
or it failed with some other error. -/
inductive ProbeResult where
  | found
  | notFound
  | otherError
  deriving DecidableEq, Repr

/-- External collaborators as oracles: the DMZ probe result per key, the
review-type API result set (list of ids) per name, and the uuid generator. -/
structure Env where
  dmzProbe : String → ProbeResult
  reviewTypesResp : String → List String
  uuid : String

/-- The process-wide `reviewTypes` cache object, name → id. -/
abbrev Cache := List (String × String)

/-- JS property read `reviewTypes[name]`. -/
def cacheGet (cache : Cache) (name : String) : Option String :=
  (cache.find? (fun e => e.1 == name)).map (·.2)

/-- A JS exception value. -/
inductive JsError where
  | typeError
  | s3Error
  | invalidTopic (t : String)
  deriving DecidableEq, Repr

/-- One recorded side effect (S3 call or outbound HTTP call), in the order
the code issues them. -/
inductive Action where
  | getObject (bucket key : String)
  | download (url : String)
  | s3Fetch (bucket key : String)
  | httpFetch (url : String)
  | upload (bucket key : String)
  | scanRequest (submissionId url fileName : String)
  | copyObject (targetBucket copySource targetKey : String)
  | deleteObject (bucket key : String)
  | patchSubmission (path url : String)
  | getReviewTypes (name : String)
  | postReview (score : Nat) (reviewerId submissionId scoreCardId : String)
      (typeId : Option String)
  deriving DecidableEq, Repr

/-- Modelled from the external `amazon-s3-uri` library for path-style URLs:
the bucket is the first path segment after the host, the key the rest of the
path. -/
def AmazonS3URI (url : String) : String × String :=
  let rest := afterScheme url
  match dropPastSlash rest with
  | none => ("", "")
  | some afterHost =>
    (String.mk (takeUntilSlash afterHost),
     match dropPastSlash afterHost with
     | none => ""
     | some k => String.mk k)

/-- `helper.downloadFile(fileURL)`: if the URL passes the
`/.*amazonaws.*/` test, fetch from S3 with the bucket/key parsed out of the
URL; otherwise fetch it with a plain HTTP GET. The trace starts with a
`download` marker for the call itself. -/
def downloadFile (fileURL : String) : List Action :=
  if amazonawsTest fileURL then
    [.download fileURL,
     .s3Fetch (AmazonS3URI fileURL).1 (AmazonS3URI fileURL).2]
  else
    [.download fileURL, .httpFetch fileURL]

/-- `helper.moveFile`: copy the object to the target bucket, then delete the
source object, in that order. -/
def moveFile (sourceBucket sourceKey targetBucket targetKey : String) :
    List Action :=
  [.copyObject targetBucket ("/" ++ sourceBucket ++ "/" ++ sourceKey) targetKey,
   .deleteObject sourceBucket sourceKey]

/-- `helper.getreviewTypeId`: return the cached id if the cache entry is
truthy; otherwise GET the review types for the name, and if the result set
is non-empty store and return the first id, else return null. Result:
(returned id, updated cache, issued network calls). -/
def getreviewTypeId (cfg : Config) (env : Env) (cache : Cache)
    (reviewTypeName : String) : Option String × Cache × List Action :=
  if jsTruthyStr (cacheGet cache reviewTypeName) then
    (cacheGet cache reviewTypeName, cache, [])
  else
    match env.reviewTypesResp reviewTypeName with
    | [] => (none, cache, [.getReviewTypes reviewTypeName])
    | i :: _ => (some i, (reviewTypeName, i) :: cache,
        [.getReviewTypes reviewTypeName])

/-- The public URL of an object, `https://s3.amazonaws.com/{bucket}/{key}`. -/
def s3PublicURL (bucket key : String) : String :=
  "https://s3.amazonaws.com/" ++ bucket ++ "/" ++ key

/-- `ProcessorService.processCreate`: ignore non-submission resources; probe
the DMZ bucket for `{id}.{fileType}`; on 404 download the payload URL and
upload to DMZ; rethrow any other probe error; then POST the scan request.
Result: (return value or exception, issued actions). -/
def processCreate (cfg : Config) (env : Env) (message : Envelope) :
    Except JsError Bool × List Action :=
  match message.payload with
  | none => (.error .typeError, [])
  | some p =>
    if p.resource ≠ some "submission" then
      (.ok false, [])
    else
      let fileName := jsToString p.id ++ "." ++ jsToString p.fileType
      let scanAct : Action :=
        .scanRequest (jsToString p.id) (s3PublicURL cfg.DMZ_BUCKET fileName)
          fileName
      match env.dmzProbe fileName with
      | .found =>
        (.ok true, [.getObject cfg.DMZ_BUCKET fileName, scanAct])
      | .notFound =>
        (.ok true,
         [Action.getObject cfg.DMZ_BUCKET fileName]
           ++ downloadFile (jsToString p.url)
           ++ [.upload cfg.DMZ_BUCKET fileName, scanAct])
      | .otherError =>
        (.error .s3Error, [.getObject cfg.DMZ_BUCKET fileName])

/-- `ProcessorService.processScan`: pick the destination bucket by the
`isInfected` verdict, move the file out of DMZ, PATCH the submission with
the moved URL, then POST a review whose `typeId` is the (cached) review-type
lookup for "Virus Scan". Result: (result, issued actions, updated cache). -/
def processScan (cfg : Config) (env : Env) (cache : Cache)
    (message : Envelope) : Except JsError Unit × List Action × Cache :=
  match message.payload with
  | none => (.error .typeError, [], cache)
  | some p =>
    let fileName := jsToString p.fileName
    let destinationBucket :=
      if jsTruthy p.isInfected then cfg.QUARANTINE_BUCKET else cfg.CLEAN_BUCKET
    let movedS3Obj := s3PublicURL destinationBucket fileName
    let lookup := getreviewTypeId cfg env cache AV_SCAN
    (.ok (),
     moveFile cfg.DMZ_BUCKET fileName destinationBucket fileName
       ++ [.patchSubmission
             (cfg.SUBMISSION_API_URL ++ "/submissions/"
               ++ jsToString p.submissionId) movedS3Obj]
       ++ lookup.2.2
       ++ [.postReview (if jsTruthy p.isInfected then 0 else 100) env.uuid
             (jsToString p.submissionId) REVIEW_SCORECARDID lookup.1],
     lookup.2.1)

/-! ### Storage state semantics (for move idempotency)

An S3 state maps (bucket, key) to object contents; `copyObject` fails when
the source object is missing, `deleteObject` succeeds unconditionally. -/

/-- S3 state: an association list from (bucket, key) to contents,
kept duplicate-free by construction of `stPut`/`stDel`. -/
abbrev Storage := List ((String × String) × String)

/-- Contents of the object at (bucket, key), if present. -/
def stGet (st : Storage) (bucket key : String) : Option String :=
  (st.find? (fun e => e.1 == (bucket, key))).map (·.2)

/-- Write (overwrite) the object at (bucket, key). -/
def stPut (st : Storage) (bucket key v : String) : Storage :=
  ((bucket, key), v) :: st.filter (fun e => !(e.1 == (bucket, key)))

/-- Delete the object at (bucket, key); a no-op when absent. -/
def stDel (st : Storage) (bucket key : String) : Storage :=
  st.filter (fun e => !(e.1 == (bucket, key)))

/-- Run `copyObjectAsync`: fails (NoSuchKey) when the source is absent,
otherwise overwrites the target with the source's contents. -/
def copyObjectRun (st : Storage)
    (sourceBucket sourceKey targetBucket targetKey : String) :
    Except JsError Storage :=
  match stGet st sourceBucket sourceKey with
  | none => .error .s3Error
  | some v => .ok (stPut st targetBucket targetKey v)

/-- Run `helper.moveFile` against a storage state: copy to the target, then
delete the source. -/
def moveFileRun (st : Storage)
    (sourceBucket sourceKey targetBucket targetKey : String) :
    Except JsError Storage :=
  match copyObjectRun st sourceBucket sourceKey targetBucket targetKey with
  | .error e => .error e
  | .ok st1 => .ok (stDel st1 sourceBucket sourceKey)

/-! ### The message dispatcher -/

/-- A logging call of the dispatcher, by level. -/
inductive LogEvent where
  | infoLog
  | errorLog
  | debugLog
  deriving DecidableEq, Repr

/-- One raw Kafka message: its offset and the result of JSON-decoding its
value bytes (`none` when `JSON.parse` throws). -/
structure KafkaMessage where
  offset : Nat
  value : Option Envelope
  deriving DecidableEq, Repr, Inhabited

/-- The settlement of a workflow, as an `Option JsError` code. -/
def exceptCode : Except JsError Unit → Option JsError
  | .ok _ => none
  | .error e => some e

instance : DecidableEq (Except JsError Unit) := fun a b =>
  decidable_of_iff (exceptCode a = exceptCode b)
    (by cases a <;> cases b <;> simp [exceptCode])

/-- What handling one message did: the offsets committed (as
(topic, partition, offset) triples), the dispatcher's log calls, the
workflow side effects, the settlement of the routed workflow (`none` when no
workflow ran), and an exception escaping the handler itself, if any. -/
structure HandlerOutcome where
  committed : List (String × Nat × Nat) := []
  logs : List LogEvent := []
  actions : List Action := []
  workflowResult : Option (Except JsError Unit) := none
  thrown : Option JsError := none
  deriving Repr, Inhabited

/-- The `co` block of the dispatcher: switch on the arrival topic and run the
matching workflow; an unknown topic throws. `processCreate`'s boolean return
value is discarded by the dispatcher. -/
def routeWorkflow (cfg : Config) (env : Env) (cache : Cache) (topic : String)
    (msg : Envelope) : Except JsError Unit × List Action × Cache :=
  if topic == cfg.SUBMISSION_CREATE_TOPIC then
    let r := processCreate cfg env msg
    (r.1.map (fun _ => ()), r.2, cache)
  else if topic == cfg.AVSCAN_TOPIC then
    processScan cfg env cache msg
  else
    (.error (.invalidTopic topic), [], cache)

/-- The `status` property of a possibly-absent payload object (only read
when the payload is known to be present). -/
def statusOf : Option Payload → Option String
  | none => none
  | some p => p.status

/-- The `fileType` property of a possibly-absent payload object. -/
def fileTypeOf : Option Payload → Option String
  | none => none
  | some p => p.fileType

/-- Handling of a single message by `dataHandler`, following the source
line by line: JSON decode (failure is caught, logged twice, no commit);
envelope-topic/arrival-topic check (mismatch logged, no commit); the scan
filter `messageJSON.topic === AVSCAN_TOPIC && payload.status !== 'scanned'`
(reading `status` of a missing payload throws a TypeError that escapes the
handler); the create filter
`topic === SUBMISSION_CREATE_TOPIC && payload.fileType === 'url'` (same
TypeError on a missing payload); then route, commit on success, and catch,
log and skip the commit on workflow failure. -/
def handleMessage (cfg : Config) (env : Env) (cache : Cache) (topic : String)
    (partition : Nat) (m : KafkaMessage) : HandlerOutcome × Cache :=
  match m.value with
  | none =>
    ({ logs := [.infoLog, .errorLog, .errorLog] }, cache)
  | some msg =>
    if msg.topic ≠ some topic then
      ({ logs := [.infoLog, .errorLog] }, cache)
    else if msg.topic == some cfg.AVSCAN_TOPIC && msg.payload.isNone then
      ({ logs := [.infoLog], thrown := some .typeError }, cache)
    else if msg.topic == some cfg.AVSCAN_TOPIC
        && statusOf msg.payload != some "scanned" then
      ({ logs := [.infoLog, .debugLog] }, cache)
    else if topic == cfg.SUBMISSION_CREATE_TOPIC && msg.payload.isNone then
      ({ logs := [.infoLog], thrown := some .typeError }, cache)
    else if topic == cfg.SUBMISSION_CREATE_TOPIC
        && fileTypeOf msg.payload == some "url" then
      ({ logs := [.infoLog, .debugLog] }, cache)
    else
      match routeWorkflow cfg env cache topic msg with
      | (.ok _, acts, cache2) =>
        ({ committed := [(topic, partition, m.offset)], logs := [.infoLog],
           actions := acts, workflowResult := some (.ok ()) }, cache2)
      | (.error e, acts, cache2) =>
        ({ logs := [.infoLog, .errorLog], actions := acts,
           workflowResult := some (.error e) }, cache2)

/-- `dataHandler` over a batch: `Promise.each` handles the messages strictly
in order, threading the process-wide cache; an exception escaping one
message's handler rejects the iteration, so later messages are not
handled. -/
def dataHandler (cfg : Config) (env : Env) (cache : Cache)
    (messageSet : List KafkaMessage) (topic : String) (partition : Nat) :
    List HandlerOutcome × Cache :=
  match messageSet with
  | [] => ([], cache)
  | m :: rest =>
    let r := handleMessage cfg env cache topic partition m
    if r.1.thrown.isSome then ([r.1], r.2)
    else
      let rs := dataHandler cfg env r.2 rest topic partition
      (r.1 :: rs.1, rs.2)

/-! ### Observation helpers and concrete instances -/

/-- The action is the `helper.downloadFile` call itself. -/
def isDownloadAct : Action → Bool
  | .download _ => true
  | _ => false

/-- The action is the `uploadAsync` call to a bucket. -/
def isUploadAct : Action → Bool
  | .upload _ _ => true
  | _ => false

/-- The action is the POST of a scan request. -/
def isScanRequestAct : Action → Bool
  | .scanRequest _ _ _ => true
  | _ => false

/-- The trace contains a storage-native (S3) fetch. -/
def usesS3Fetch (acts : List Action) : Bool :=
  acts.any (fun a =>
    match a with
    | .s3Fetch _ _ => true
    | _ => false)

/-- Modelled from the spec: the host (authority) component of a URL, the
text between `"://"` and the following `"/"`. -/
def urlHost (url : String) : String :=
  String.mk (takeUntilSlash (afterScheme url))

/-- Modelled from the spec: the URL "points at the storage service's own
domain" — its host component mentions the amazonaws domain. -/
def pointsAtStorageDomain (url : String) : Bool :=
  listOccurs "amazonaws".data (urlHost url).data

/-- The outcome of the i-th message of a batch (defaulting past the end). -/
def outcomeAt (cfg : Config) (env : Env) (cache : Cache)
    (messageSet : List KafkaMessage) (topic : String) (partition : Nat)
    (i : Nat) : HandlerOutcome :=
  ((dataHandler cfg env cache messageSet topic partition).1).getD i default

/-- A concrete configuration for the closed instances below. -/
def cfg0 : Config :=
  { AVSCAN_TOPIC := "avscan.action.scan"
    SUBMISSION_CREATE_TOPIC := "submission.notification.create"
    DMZ_BUCKET := "dmz-bucket"
    CLEAN_BUCKET := "clean-bucket"
    QUARANTINE_BUCKET := "quarantine-bucket"
    ANTIVIRUS_API_URL := "https://av.example/scan"
    SUBMISSION_API_URL := "https://api.example/v5" }

/-- A concrete environment whose DMZ probe reports 404 and whose review-type
lookups come back empty. -/
def env0 : Env :=
  { dmzProbe := fun _ => .notFound
    reviewTypesResp := fun _ => []
    uuid := "uuid-0001" }

/-- A concrete environment whose DMZ probe finds the object and whose
review-type lookup returns one id. -/
def env1 : Env :=
  { dmzProbe := fun _ => .found
    reviewTypesResp := fun _ => ["rt-77"]
    uuid := "uuid-0002" }

/-- A concrete scan payload (Scenario B of the spec). -/
def pScanB : Payload :=
  { submissionId := some "abc123", fileName := some "abc123.zip",
    url := some "https://s3.amazonaws.com/dmz-bucket/abc123.zip",
    status := some "scanned", isInfected := some true }

/-- A concrete create payload (Scenario A of the spec). -/
def pCreateA : Payload :=
  { resource := some "submission", id := some "abc123",
    fileType := some "zip", url := some "http://host/file.zip" }

/-- A concrete one-message batch on the scan topic. -/
def batch1 : List KafkaMessage :=
  [⟨11, some ⟨some cfg0.AVSCAN_TOPIC, some pScanB⟩⟩]

/-! ### Theorems -/

/-- C2: for every scan payload, `processScan` with `isInfected=true` moves
the object from the DMZ area to the quarantine area and posts a review with
score 0, and with `isInfected=false` moves it from the DMZ area to the clean
area and posts a review with score 100; in both cases the submission PATCH
with the moved object's URL precedes the review POST, and the review
carries the fixed `REVIEW_SCORECARDID` constant. -/
theorem C2_processScan_verdict (cfg : Config) (env : Env) (cache : Cache)
    (t : Option String) (p : Payload) (verdict : Bool)
    (hv : p.isInfected = some verdict) :
    processScan cfg env cache ⟨t, some p⟩ =
      (.ok (),
       moveFile cfg.DMZ_BUCKET (jsToString p.fileName)
           (if verdict then cfg.QUARANTINE_BUCKET else cfg.CLEAN_BUCKET)
           (jsToString p.fileName)
         ++ [.patchSubmission
               (cfg.SUBMISSION_API_URL ++ "/submissions/"
                 ++ jsToString p.submissionId)
               (s3PublicURL
                 (if verdict then cfg.QUARANTINE_BUCKET
                  else cfg.CLEAN_BUCKET)
                 (jsToString p.fileName))]
         ++ (getreviewTypeId cfg env cache AV_SCAN).2.2
         ++ [.postReview (if verdict then 0 else 100) env.uuid
               (jsToString p.submissionId) REVIEW_SCORECARDID
               (getreviewTypeId cfg env cache AV_SCAN).1],
       (getreviewTypeId cfg env cache AV_SCAN).2.1) := by
  simp only [processScan, jsTruthy, hv]

/-- Witness for C2 at Scenario B's payload (`isInfected = true`). -/
theorem C2_processScan_verdict_witness :
    pScanB.isInfected = some true ∧
    processScan cfg0 env1 [] ⟨some cfg0.AVSCAN_TOPIC, some pScanB⟩ =
      (.ok (),
       moveFile cfg0.DMZ_BUCKET (jsToString pScanB.fileName)
           (if true then cfg0.QUARANTINE_BUCKET else cfg0.CLEAN_BUCKET)
           (jsToString pScanB.fileName)
         ++ [.patchSubmission
               (cfg0.SUBMISSION_API_URL ++ "/submissions/"
                 ++ jsToString pScanB.submissionId)
               (s3PublicURL
                 (if true then cfg0.QUARANTINE_BUCKET
                  else cfg0.CLEAN_BUCKET)
                 (jsToString pScanB.fileName))]
         ++ (getreviewTypeId cfg0 env1 [] AV_SCAN).2.2
         ++ [.postReview (if true then 0 else 100) env1.uuid
               (jsToString pScanB.submissionId) REVIEW_SCORECARDID
               (getreviewTypeId cfg0 env1 [] AV_SCAN).1],
       (getreviewTypeId cfg0 env1 [] AV_SCAN).2.1) :=
  ⟨rfl, C2_processScan_verdict cfg0 env1 []
    (some cfg0.AVSCAN_TOPIC) pScanB true rfl⟩

/-- C4: for every raw message whose bytes do not parse as JSON, the
per-message handler does not propagate any exception to its caller, does not
commit the offset, and logs the error. -/
theorem C4_malformed_json_dropped (cfg : Config) (env : Env) (cache : Cache)
    (topic : String) (partition : Nat) (off : Nat) :
    (handleMessage cfg env cache topic partition ⟨off, none⟩).1.thrown = none
    ∧ (handleMessage cfg env cache topic partition ⟨off, none⟩).1.committed
        = []
    ∧ LogEvent.errorLog
        ∈ (handleMessage cfg env cache topic partition ⟨off, none⟩).1.logs
    ∧ (handleMessage cfg env cache topic partition ⟨off, none⟩).2 = cache := by
  simp [handleMessage]

/-- C5: a message that parses as valid JSON, whose envelope topic matches
the arrival topic, but which has no payload object, makes the handler throw
a TypeError while evaluating the status/fileType filter — before routing and
before the catch installed for workflow errors — on the scan topic and on
the create topic alike; it is not handled by the documented log-and-drop
path. -/
theorem C5_missing_payload_throws :
    ((handleMessage cfg0 env0 [] cfg0.AVSCAN_TOPIC 0
        ⟨5, some ⟨some cfg0.AVSCAN_TOPIC, none⟩⟩).1.thrown
          = some .typeError
      ∧ (handleMessage cfg0 env0 [] cfg0.AVSCAN_TOPIC 0
          ⟨5, some ⟨some cfg0.AVSCAN_TOPIC, none⟩⟩).1.workflowResult = none
      ∧ (handleMessage cfg0 env0 [] cfg0.AVSCAN_TOPIC 0
          ⟨5, some ⟨some cfg0.AVSCAN_TOPIC, none⟩⟩).1.committed = [])
    ∧ ((handleMessage cfg0 env0 [] cfg0.SUBMISSION_CREATE_TOPIC 0
        ⟨7, some ⟨some cfg0.SUBMISSION_CREATE_TOPIC, none⟩⟩).1.thrown
          = some .typeError
      ∧ (handleMessage cfg0 env0 [] cfg0.SUBMISSION_CREATE_TOPIC 0
          ⟨7, some ⟨some cfg0.SUBMISSION_CREATE_TOPIC, none⟩⟩).1.workflowResult
          = none
      ∧ (handleMessage cfg0 env0 [] cfg0.SUBMISSION_CREATE_TOPIC 0
          ⟨7, some ⟨some cfg0.SUBMISSION_CREATE_TOPIC, none⟩⟩).1.committed
          = []) := by
  decide

/-- Helper: the trace of one `downloadFile` call contains exactly one
download, and no upload or scan request. -/
theorem downloadFile_counts (url : String) :
    (downloadFile url).countP isDownloadAct = 1
    ∧ (downloadFile url).countP isUploadAct = 0
    ∧ (downloadFile url).countP isScanRequestAct = 0 := by
  unfold downloadFile
  split <;>
    simp [isDownloadAct, isUploadAct, isScanRequestAct, List.countP_cons]

/-- C10: if the review-type lookup for "Virus Scan" comes back with an empty
result set, `processScan` does not fail: it still POSTs the review, with
`typeId` equal to null, after the move and the submission PATCH have already
been performed (and the cache is left unchanged). -/
theorem C10_empty_reviewTypes_still_posts (cfg : Config) (env : Env)
    (cache : Cache) (t : Option String) (p : Payload)
    (hc : jsTruthyStr (cacheGet cache AV_SCAN) = false)
    (hr : env.reviewTypesResp AV_SCAN = []) :
    processScan cfg env cache ⟨t, some p⟩ =
      (.ok (),
       moveFile cfg.DMZ_BUCKET (jsToString p.fileName)
           (if jsTruthy p.isInfected then cfg.QUARANTINE_BUCKET
            else cfg.CLEAN_BUCKET)
           (jsToString p.fileName)
         ++ [.patchSubmission
               (cfg.SUBMISSION_API_URL ++ "/submissions/"
                 ++ jsToString p.submissionId)
               (s3PublicURL
                 (if jsTruthy p.isInfected then cfg.QUARANTINE_BUCKET
                  else cfg.CLEAN_BUCKET)
                 (jsToString p.fileName))]
         ++ [.getReviewTypes AV_SCAN]
         ++ [.postReview (if jsTruthy p.isInfected then 0 else 100) env.uuid
               (jsToString p.submissionId) REVIEW_SCORECARDID none],
       cache) := by
  simp only [processScan, getreviewTypeId, hc, hr, Bool.false_eq_true,
    if_false]

/-- Witness for C10: Scenario B's payload against an environment whose
review-type lookups are empty. -/
theorem C10_empty_reviewTypes_still_posts_witness :
    jsTruthyStr (cacheGet [] AV_SCAN) = false
    ∧ env0.reviewTypesResp AV_SCAN = []
    ∧ processScan cfg0 env0 [] ⟨some cfg0.AVSCAN_TOPIC, some pScanB⟩ =
      (.ok (),
       moveFile cfg0.DMZ_BUCKET (jsToString pScanB.fileName)
           (if jsTruthy pScanB.isInfected then cfg0.QUARANTINE_BUCKET
            else cfg0.CLEAN_BUCKET)
           (jsToString pScanB.fileName)
         ++ [.patchSubmission
               (cfg0.SUBMISSION_API_URL ++ "/submissions/"
                 ++ jsToString pScanB.submissionId)
               (s3PublicURL
                 (if jsTruthy pScanB.isInfected then cfg0.QUARANTINE_BUCKET
                  else cfg0.CLEAN_BUCKET)
                 (jsToString pScanB.fileName))]
         ++ [.getReviewTypes AV_SCAN]
         ++ [.postReview (if jsTruthy pScanB.isInfected then 0 else 100)
               env0.uuid (jsToString pScanB.submissionId) REVIEW_SCORECARDID
               none],
       []) :=
  ⟨rfl, rfl, C10_empty_reviewTypes_still_posts cfg0 env0 []
    (some cfg0.AVSCAN_TOPIC) pScanB rfl rfl⟩

/-- C3: for every create payload with `resource == "submission"`: when the
key `{id}.{fileType}` is absent from the DMZ area (probe fails with 404),
`processCreate` performs exactly one download from `payload.url` and exactly
one upload to the DMZ area before issuing exactly one scan request; when the
key is already present, it performs zero downloads and zero uploads but
still issues exactly one scan request; in both cases it returns true. -/
theorem C3_processCreate_staging (cfg : Config) (env : Env)
    (t : Option String) (p : Payload)
    (hres : p.resource = some "submission") :
    (env.dmzProbe (jsToString p.id ++ "." ++ jsToString p.fileType)
        = .notFound →
      processCreate cfg env ⟨t, some p⟩ =
        (.ok true,
         [Action.getObject cfg.DMZ_BUCKET
            (jsToString p.id ++ "." ++ jsToString p.fileType)]
           ++ downloadFile (jsToString p.url)
           ++ [.upload cfg.DMZ_BUCKET
                 (jsToString p.id ++ "." ++ jsToString p.fileType),
               .scanRequest (jsToString p.id)
                 (s3PublicURL cfg.DMZ_BUCKET
                   (jsToString p.id ++ "." ++ jsToString p.fileType))
                 (jsToString p.id ++ "." ++ jsToString p.fileType)])
      ∧ (processCreate cfg env ⟨t, some p⟩).2.countP isDownloadAct = 1
      ∧ (processCreate cfg env ⟨t, some p⟩).2.countP isUploadAct = 1
      ∧ (processCreate cfg env ⟨t, some p⟩).2.countP isScanRequestAct = 1)
    ∧ (env.dmzProbe (jsToString p.id ++ "." ++ jsToString p.fileType)
        = .found →
      processCreate cfg env ⟨t, some p⟩ =
        (.ok true,
         [.getObject cfg.DMZ_BUCKET
            (jsToString p.id ++ "." ++ jsToString p.fileType),
          .scanRequest (jsToString p.id)
            (s3PublicURL cfg.DMZ_BUCKET
              (jsToString p.id ++ "." ++ jsToString p.fileType))
            (jsToString p.id ++ "." ++ jsToString p.fileType)])
      ∧ (processCreate cfg env ⟨t, some p⟩).2.countP isDownloadAct = 0
      ∧ (processCreate cfg env ⟨t, some p⟩).2.countP isUploadAct = 0
      ∧ (processCreate cfg env ⟨t, some p⟩).2.countP isScanRequestAct = 1) := by
  constructor
  · intro hprobe
    have htr : processCreate cfg env ⟨t, some p⟩ =
        (.ok true,
         [Action.getObject cfg.DMZ_BUCKET
            (jsToString p.id ++ "." ++ jsToString p.fileType)]
           ++ downloadFile (jsToString p.url)
           ++ [.upload cfg.DMZ_BUCKET
                 (jsToString p.id ++ "." ++ jsToString p.fileType),
               .scanRequest (jsToString p.id)
                 (s3PublicURL cfg.DMZ_BUCKET
                   (jsToString p.id ++ "." ++ jsToString p.fileType))
                 (jsToString p.id ++ "." ++ jsToString p.fileType)]) := by
      simp only [processCreate, hres, hprobe]
      simp
    refine ⟨htr, ?_, ?_, ?_⟩ <;>
      · rw [htr]
        simp [List.countP_append, List.countP_cons, downloadFile_counts,
          (downloadFile_counts (jsToString p.url)).1,
          (downloadFile_counts (jsToString p.url)).2.1,
          (downloadFile_counts (jsToString p.url)).2.2,
          isDownloadAct, isUploadAct, isScanRequestAct]
  · intro hprobe
    have htr : processCreate cfg env ⟨t, some p⟩ =
        (.ok true,
         [.getObject cfg.DMZ_BUCKET
            (jsToString p.id ++ "." ++ jsToString p.fileType),
          .scanRequest (jsToString p.id)
            (s3PublicURL cfg.DMZ_BUCKET
              (jsToString p.id ++ "." ++ jsToString p.fileType))
            (jsToString p.id ++ "." ++ jsToString p.fileType)]) := by
      simp only [processCreate, hres, hprobe]
      simp
    refine ⟨htr, ?_, ?_, ?_⟩ <;>
      · rw [htr]
        simp [List.countP_cons, isDownloadAct, isUploadAct, isScanRequestAct]

/-- Witness for C3 at Scenario A's payload: DMZ probe reports 404, so the
staging performs one download, one upload, and one scan request. -/
theorem C3_processCreate_staging_witness :
    pCreateA.resource = some "submission"
    ∧ env0.dmzProbe
        (jsToString pCreateA.id ++ "." ++ jsToString pCreateA.fileType)
        = .notFound
    ∧ (processCreate cfg0 env0
        ⟨some cfg0.SUBMISSION_CREATE_TOPIC, some pCreateA⟩).2.countP
        isDownloadAct = 1
    ∧ (processCreate cfg0 env0
        ⟨some cfg0.SUBMISSION_CREATE_TOPIC, some pCreateA⟩).2.countP
        isUploadAct = 1
    ∧ (processCreate cfg0 env0
        ⟨some cfg0.SUBMISSION_CREATE_TOPIC, some pCreateA⟩).2.countP
        isScanRequestAct = 1 :=
  ⟨rfl, rfl,
   ((C3_processCreate_staging cfg0 env0 (some cfg0.SUBMISSION_CREATE_TOPIC)
      pCreateA rfl).1 rfl).2.1,
   ((C3_processCreate_staging cfg0 env0 (some cfg0.SUBMISSION_CREATE_TOPIC)
      pCreateA rfl).1 rfl).2.2.1,
   ((C3_processCreate_staging cfg0 env0 (some cfg0.SUBMISSION_CREATE_TOPIC)
      pCreateA rfl).1 rfl).2.2.2⟩

/-- C6: `getreviewTypeId` first checks the process-wide cache (returning a
truthy cached id without any network call); on a miss it issues the GET for
that name; a non-empty result set stores the first id in the cache and
returns it, an empty result set returns null and leaves the cache
unchanged. -/
theorem C6_getreviewTypeId_contract (cfg : Config) (env : Env)
    (cache : Cache) (name : String) :
    (∀ v, cacheGet cache name = some v → v ≠ "" →
       getreviewTypeId cfg env cache name = (some v, cache, []))
    ∧ (jsTruthyStr (cacheGet cache name) = false →
        (∀ i rest, env.reviewTypesResp name = i :: rest →
           getreviewTypeId cfg env cache name
             = (some i, (name, i) :: cache, [.getReviewTypes name]))
        ∧ (env.reviewTypesResp name = [] →
           getreviewTypeId cfg env cache name
             = (none, cache, [.getReviewTypes name]))) := by
  refine ⟨?_, fun hmiss => ⟨?_, ?_⟩⟩
  · intro v hv hne
    simp [getreviewTypeId, jsTruthyStr, hv, hne]
  · intro i rest hresp
    simp [getreviewTypeId, hmiss, hresp]
  · intro hresp
    simp [getreviewTypeId, hmiss, hresp]

/-- Witness for C6, cache-hit clause, at a concrete cache. -/
theorem C6_getreviewTypeId_contract_witness :
    cacheGet [(AV_SCAN, "rt-9")] AV_SCAN = some "rt-9"
    ∧ "rt-9" ≠ ""
    ∧ getreviewTypeId cfg0 env1 [(AV_SCAN, "rt-9")] AV_SCAN
        = (some "rt-9", [(AV_SCAN, "rt-9")], []) :=
  ⟨rfl, by decide,
   (C6_getreviewTypeId_contract cfg0 env1 [(AV_SCAN, "rt-9")] AV_SCAN).1
     "rt-9" rfl (by decide)⟩

/-- C7 counterexample: starting from an empty cache, when the review-type
API answers with an empty result set, two successive `getreviewTypeId`
calls for the same name each issue their own GET — two network calls in
total, not one. -/
theorem C7_counterexample :
    (getreviewTypeId cfg0 env0 [] AV_SCAN).2.2
        ++ (getreviewTypeId cfg0 env0
              (getreviewTypeId cfg0 env0 [] AV_SCAN).2.1 AV_SCAN).2.2
      = [.getReviewTypes AV_SCAN, .getReviewTypes AV_SCAN] := by
  decide

/-- C7 amended: for every name, starting from a cache without a truthy entry
for that name, if the GET for the name returns a non-empty result set whose
first id is a non-empty string, then two successive calls issue exactly one
network call in total, the second call being served from the cache. -/
theorem C7_second_lookup_cached (cfg : Config) (env : Env) (cache : Cache)
    (name i : String) (rest : List String)
    (hmiss : jsTruthyStr (cacheGet cache name) = false)
    (hresp : env.reviewTypesResp name = i :: rest) (hi : i ≠ "") :
    (getreviewTypeId cfg env cache name).2.2
        ++ (getreviewTypeId cfg env
              (getreviewTypeId cfg env cache name).2.1 name).2.2
      = [.getReviewTypes name]
    ∧ (getreviewTypeId cfg env
         (getreviewTypeId cfg env cache name).2.1 name).2.2 = []
    ∧ (getreviewTypeId cfg env cache name).1 = some i
    ∧ (getreviewTypeId cfg env
         (getreviewTypeId cfg env cache name).2.1 name).1 = some i := by
  have h1 : getreviewTypeId cfg env cache name
      = (some i, (name, i) :: cache, [.getReviewTypes name]) := by
    simp [getreviewTypeId, hmiss, hresp]
  have h2 : getreviewTypeId cfg env ((name, i) :: cache) name
      = (some i, (name, i) :: cache, []) := by
    simp [getreviewTypeId, cacheGet, jsTruthyStr, hi]
  rw [h1]
  simp [h2]

/-- Witness for C7 (amended) at a concrete name and environment. -/
theorem C7_second_lookup_cached_witness :
    jsTruthyStr (cacheGet [] AV_SCAN) = false
    ∧ env1.reviewTypesResp AV_SCAN = ["rt-77"]
    ∧ "rt-77" ≠ ""
    ∧ (getreviewTypeId cfg0 env1 [] AV_SCAN).2.2
        ++ (getreviewTypeId cfg0 env1
              (getreviewTypeId cfg0 env1 [] AV_SCAN).2.1 AV_SCAN).2.2
      = [.getReviewTypes AV_SCAN]
    ∧ (getreviewTypeId cfg0 env1
         (getreviewTypeId cfg0 env1 [] AV_SCAN).2.1 AV_SCAN).1
      = some "rt-77" :=
  ⟨rfl, rfl, by decide,
   (C7_second_lookup_cached cfg0 env1 [] AV_SCAN "rt-77" [] rfl rfl
     (by decide)).1,
   (C7_second_lookup_cached cfg0 env1 [] AV_SCAN "rt-77" [] rfl rfl
     (by decide)).2.2.2⟩

/-- C8 counterexample: the URL `http://evil.example/amazonaws.zip` does not
point at the storage service's own domain — its host is `evil.example` —
yet `downloadFile` dispatches it to the storage-native fetch, because the
`/.*amazonaws.*/` test looks at the whole URL, not at the host. -/
theorem C8_counterexample :
    usesS3Fetch (downloadFile "http://evil.example/amazonaws.zip") = true
    ∧ urlHost "http://evil.example/amazonaws.zip" = "evil.example"
    ∧ pointsAtStorageDomain "http://evil.example/amazonaws.zip" = false := by
  decide

/-- C8 amended: `downloadFile` fetches via the storage-native API (with
bucket and key parsed from the URL) exactly when the string `"amazonaws"`
occurs anywhere in the URL — not necessarily in its domain — and fetches
the URL as a generic network resource otherwise. -/
theorem C8_dispatch_on_amazonaws_substring (url : String) :
    (usesS3Fetch (downloadFile url) = true ↔ amazonawsTest url = true)
    ∧ (amazonawsTest url = true →
        downloadFile url
          = [.download url,
             .s3Fetch (AmazonS3URI url).1 (AmazonS3URI url).2])
    ∧ (amazonawsTest url = false →
        downloadFile url = [.download url, .httpFetch url]) := by
  refine ⟨?_, ?_, ?_⟩
  · unfold downloadFile
    split <;> simp_all [usesS3Fetch]
  · intro h
    simp [downloadFile, h]
  · intro h
    simp [downloadFile, h]

/-- Witness for C8 (amended) at a storage-service URL. -/
theorem C8_dispatch_on_amazonaws_substring_witness :
    amazonawsTest "https://s3.amazonaws.com/dmz-bucket/abc123.zip" = true
    ∧ downloadFile "https://s3.amazonaws.com/dmz-bucket/abc123.zip"
      = [.download "https://s3.amazonaws.com/dmz-bucket/abc123.zip",
         .s3Fetch
           (AmazonS3URI "https://s3.amazonaws.com/dmz-bucket/abc123.zip").1
           (AmazonS3URI "https://s3.amazonaws.com/dmz-bucket/abc123.zip").2] :=
  ⟨by decide,
   (C8_dispatch_on_amazonaws_substring
     "https://s3.amazonaws.com/dmz-bucket/abc123.zip").2.1 (by decide)⟩

/-- Helper: deleting key `y` does not change what `find?` sees at key
`x ≠ y`. -/
theorem find?_stDel (st : Storage) (x y : String × String) (h : x ≠ y) :
    ((st.filter (fun e => !(e.1 == y))).find? (fun e => e.1 == x))
      = st.find? (fun e => e.1 == x) := by
  induction st with
  | nil => rfl
  | cons e st ih =>
    rcases eq_or_ne e.1 y with hy | hy
    · have hyx : (y == x) = false := beq_eq_false_iff_ne.mpr (Ne.symm h)
      simp [List.filter_cons, List.find?_cons, hy, hyx, ih]
    · rcases eq_or_ne e.1 x with hx | hx
      · simp [List.filter_cons, List.find?_cons, hy, hx, h]
      · simp [List.filter_cons, List.find?_cons, hy, hx, ih]

/-- Helper: looking up (b', k') after writing (b, k). -/
theorem stGet_stPut (st : Storage) (b k v b' k' : String) :
    stGet (stPut st b k v) b' k'
      = if (b', k') = (b, k) then some v else stGet st b' k' := by
  rcases eq_or_ne (b', k') (b, k) with he | he
  · simp [stGet, stPut, List.find?_cons, he]
  · have hhead : ((b, k) == (b', k')) = false :=
      beq_eq_false_iff_ne.mpr (Ne.symm he)
    simp only [stGet, stPut, List.find?_cons, hhead, if_neg he]
    rw [find?_stDel st (b', k') (b, k) he]

/-- Helper: overwriting the same key twice with the same contents is the
same as writing it once. -/
theorem stPut_stPut (st : Storage) (b k v : String) :
    stPut (stPut st b k v) b k v = stPut st b k v := by
  simp [stPut, List.filter_cons, List.filter_filter]

/-- C9: `moveFile` first copies the object to the destination and then
deletes the source, in that order; and when the source object is present,
re-running the copy-then-delete sequence from the intermediate state in
which the copy succeeded but the delete did not yet run yields the same
final storage state as the single successful run. -/
theorem C9_moveFile_order_and_idempotent (st : Storage)
    (sb sk tb tk v : String) (hsrc : stGet st sb sk = some v) :
    moveFile sb sk tb tk
      = [.copyObject tb ("/" ++ sb ++ "/" ++ sk) tk, .deleteObject sb sk]
    ∧ moveFileRun st sb sk tb tk = .ok (stDel (stPut st tb tk v) sb sk)
    ∧ moveFileRun (stPut st tb tk v) sb sk tb tk
        = moveFileRun st sb sk tb tk := by
  have hsrc' : stGet (stPut st tb tk v) sb sk = some v := by
    rw [stGet_stPut]
    split
    · rfl
    · exact hsrc
  refine ⟨rfl, ?_, ?_⟩
  · simp [moveFileRun, copyObjectRun, hsrc]
  · simp [moveFileRun, copyObjectRun, hsrc, hsrc', stPut_stPut]

/-- Witness for C9 at a concrete one-object storage state. -/
theorem C9_moveFile_order_and_idempotent_witness :
    stGet [(("dmz-bucket", "abc123.zip"), "bytes")] "dmz-bucket" "abc123.zip"
      = some "bytes"
    ∧ moveFile "dmz-bucket" "abc123.zip" "clean-bucket" "abc123.zip"
      = [.copyObject "clean-bucket" ("/" ++ "dmz-bucket" ++ "/"
            ++ "abc123.zip") "abc123.zip",
         .deleteObject "dmz-bucket" "abc123.zip"]
    ∧ moveFileRun [(("dmz-bucket", "abc123.zip"), "bytes")] "dmz-bucket"
        "abc123.zip" "clean-bucket" "abc123.zip"
      = .ok (stDel
          (stPut [(("dmz-bucket", "abc123.zip"), "bytes")] "clean-bucket"
            "abc123.zip" "bytes")
          "dmz-bucket" "abc123.zip")
    ∧ moveFileRun
        (stPut [(("dmz-bucket", "abc123.zip"), "bytes")] "clean-bucket"
          "abc123.zip" "bytes")
        "dmz-bucket" "abc123.zip" "clean-bucket" "abc123.zip"
      = moveFileRun [(("dmz-bucket", "abc123.zip"), "bytes")] "dmz-bucket"
          "abc123.zip" "clean-bucket" "abc123.zip" :=
  ⟨rfl,
   (C9_moveFile_order_and_idempotent
     [(("dmz-bucket", "abc123.zip"), "bytes")] "dmz-bucket" "abc123.zip"
     "clean-bucket" "abc123.zip" "bytes" rfl).1,
   (C9_moveFile_order_and_idempotent
     [(("dmz-bucket", "abc123.zip"), "bytes")] "dmz-bucket" "abc123.zip"
     "clean-bucket" "abc123.zip" "bytes" rfl).2.1,
   (C9_moveFile_order_and_idempotent
     [(("dmz-bucket", "abc123.zip"), "bytes")] "dmz-bucket" "abc123.zip"
     "clean-bucket" "abc123.zip" "bytes" rfl).2.2⟩

/-- Helper: per-message commit policy — the offset of a message is committed
exactly when the routed workflow settled successfully, and never
otherwise. -/
theorem handleMessage_commit_iff (cfg : Config) (env : Env) (cache : Cache)
    (topic : String) (partition : Nat) (m : KafkaMessage) :
    ((handleMessage cfg env cache topic partition m).1.committed
        = [(topic, partition, m.offset)]
      ↔ (handleMessage cfg env cache topic partition m).1.workflowResult
          = some (.ok ()))
    ∧ ((handleMessage cfg env cache topic partition m).1.workflowResult
          ≠ some (.ok ())
        → (handleMessage cfg env cache topic partition m).1.committed
            = []) := by
  rcases m with ⟨off, v⟩
  cases v with
  | none => simp [handleMessage]
  | some msg =>
    simp only [handleMessage]
    split
    · simp
    · split
      · simp
      · split
        · simp
        · split
          · simp
          · split
            · simp
            · split <;> simp

/-- C1: for every message in a batch, the dispatcher commits the message's
offset for its (topic, partition) if and only if the routed workflow
completed successfully; decode failure, envelope-topic mismatch, the
status/fileType filter skips, and a workflow that throws all leave the
offset uncommitted. -/
theorem C1_commit_iff_workflow_success (cfg : Config) (env : Env)
    (cache : Cache) (topic : String) (partition : Nat)
    (messageSet : List KafkaMessage) (i : Nat)
    (h : i
      < ((dataHandler cfg env cache messageSet topic partition).1).length) :
    ((outcomeAt cfg env cache messageSet topic partition i).committed
        = [(topic, partition, (messageSet.getD i default).offset)]
      ↔ (outcomeAt cfg env cache messageSet topic partition i).workflowResult
          = some (.ok ()))
    ∧ ((outcomeAt cfg env cache messageSet topic partition i).workflowResult
          ≠ some (.ok ())
        → (outcomeAt cfg env cache messageSet topic partition i).committed
            = []) := by
  induction messageSet generalizing cache i with
  | nil => simp [dataHandler] at h
  | cons m rest ih =>
    by_cases hth :
        (handleMessage cfg env cache topic partition m).1.thrown.isSome
          = true
    · simp only [dataHandler, hth, if_true] at h
      simp only [List.length_singleton] at h
      have hi : i = 0 := Nat.lt_one_iff.mp h
      subst hi
      simp only [outcomeAt, dataHandler, hth, if_true, List.getD_cons_zero]
      exact handleMessage_commit_iff cfg env cache topic partition m
    · simp only [dataHandler, hth, if_false, List.length_cons] at h
      cases i with
      | zero =>
        simp only [outcomeAt, dataHandler, hth, if_false,
          List.getD_cons_zero]
        exact handleMessage_commit_iff cfg env cache topic partition m
      | succ i =>
        simp only [outcomeAt, dataHandler, hth, if_false,
          List.getD_cons_succ]
        exact ih ((handleMessage cfg env cache topic partition m).2) i
          (Nat.succ_lt_succ_iff.mp h)

/-- Witness for C1 at a concrete one-message batch handled successfully. -/
theorem C1_commit_iff_workflow_success_witness :
    0 < ((dataHandler cfg0 env1 [] batch1 cfg0.AVSCAN_TOPIC 3).1).length
    ∧ (((outcomeAt cfg0 env1 [] batch1 cfg0.AVSCAN_TOPIC 3 0).committed
          = [(cfg0.AVSCAN_TOPIC, 3, (batch1.getD 0 default).offset)]
        ↔ (outcomeAt cfg0 env1 [] batch1 cfg0.AVSCAN_TOPIC 3 0).workflowResult
            = some (.ok ()))
      ∧ ((outcomeAt cfg0 env1 [] batch1 cfg0.AVSCAN_TOPIC 3 0).workflowResult
            ≠ some (.ok ())
          → (outcomeAt cfg0 env1 [] batch1 cfg0.AVSCAN_TOPIC 3 0).committed
              = [])) :=
  ⟨by decide,
   C1_commit_iff_workflow_success cfg0 env1 [] cfg0.AVSCAN_TOPIC 3 batch1 0
     (by decide)⟩

end SubmissionProcessor
